import Mathlib

/-!
Verification of the mj-backend relay (WhatsApp SEO report dispatch and
PageSpeed proxy) against its natural-language specification.

The JavaScript source is shallowly embedded: each controller becomes a pure
Lean function over explicit inputs (quota count, request body, configuration
flags) and an oracle describing what the external HTTP collaborators return.
Observable effects (responses, outbound delivery calls, backoff waits, quota
updates) are collected in result structures so that claims about "no network
call", "charged exactly once" or "zero backoff waits" become statements about
those fields.
-/

namespace MjBackend

/-! ## Phone number normalization (`formatPhoneNumber`, whatsappController.js 39-47)

The JS strips every non-digit with `replace(/\D/g, "")`, rejects digit
strings shorter than 10 or longer than 15, returns longer-than-10 strings
unchanged, prefixes "91" to 10-digit strings starting with 6/7/8/9, has an
(unreachable) 11-digit leading-zero branch, and otherwise returns the
10 digits bare.  A falsy input (empty string) is rejected up front. -/

def stripNonDigits (s : String) : String :=
  String.mk (s.data.filter Char.isDigit)

def hasMobileFirstDigit (s : String) : Bool :=
  match s.data with
  | [] => false
  | c :: _ => c = '6' || c = '7' || c = '8' || c = '9'

def formatPhoneNumber (phoneNumber : String) : Option String :=
  if phoneNumber = "" then none
  else
    let clean := stripNonDigits phoneNumber
    if clean.length < 10 ∨ 15 < clean.length then none
    else if 10 < clean.length then some clean
    else if clean.length = 10 ∧ hasMobileFirstDigit clean = true then some ("91" ++ clean)
    else if clean.length = 11 ∧ clean.startsWith "0" = true then some ("91" ++ clean.drop 1)
    else some clean

theorem stripNonDigits_empty : stripNonDigits "" = "" := rfl

theorem stripNonDigits_length_pos_ne_empty (s : String)
    (h : 0 < (stripNonDigits s).length) : s ≠ "" := by
  intro hs
  subst hs
  simp [stripNonDigits_empty] at h

/-- C9: phone normalization strips non-digits first; digit counts below 10 or
above 15 are rejected; exactly 10 digits with first digit 6/7/8/9 get "91"
prepended; exactly 10 digits with any other first digit are returned bare. -/
theorem formatPhoneNumber_spec (s : String) :
    (((stripNonDigits s).length < 10 ∨ 15 < (stripNonDigits s).length) →
       formatPhoneNumber s = none) ∧
    ((stripNonDigits s).length = 10 → hasMobileFirstDigit (stripNonDigits s) = true →
       formatPhoneNumber s = some ("91" ++ stripNonDigits s)) ∧
    ((stripNonDigits s).length = 10 → hasMobileFirstDigit (stripNonDigits s) = false →
       formatPhoneNumber s = some (stripNonDigits s)) := by
  refine ⟨?_, ?_, ?_⟩
  · intro h
    by_cases hs : s = ""
    · simp [formatPhoneNumber, hs]
    · simp only [formatPhoneNumber, if_neg hs]
      rw [if_pos h]
  · intro hlen hpre
    have hs : s ≠ "" := stripNonDigits_length_pos_ne_empty s (by omega)
    simp only [formatPhoneNumber, if_neg hs]
    rw [if_neg (by omega), if_neg (by omega), if_pos ⟨hlen, hpre⟩]
  · intro hlen hpre
    have hs : s ≠ "" := stripNonDigits_length_pos_ne_empty s (by omega)
    simp only [formatPhoneNumber, if_neg hs]
    rw [if_neg (by omega), if_neg (by omega),
      if_neg (by simp [hpre]), if_neg (by omega)]

/-- C9 witness: the three branches at concrete inputs — "12345" has 5 digits
and is rejected, "9876543210" starts with 9 and gets "91", "1234567890"
starts with 1 and is returned bare. -/
theorem formatPhoneNumber_spec_witness :
    formatPhoneNumber "12345" = none ∧
    formatPhoneNumber "9876543210" = some "919876543210" ∧
    formatPhoneNumber "1234567890" = some "1234567890" := by
  refine ⟨?_, ?_, ?_⟩
  · exact (formatPhoneNumber_spec "12345").1 (by decide)
  · exact (formatPhoneNumber_spec "9876543210").2.1 (by decide) (by decide)
  · exact (formatPhoneNumber_spec "1234567890").2.2 (by decide) (by decide)

/-- C1: the code, evaluated at the 11-digit input "09876543210", returns the
digits unchanged rather than the claimed "919876543210": the
length-greater-than-10 branch returns before the 11-digit leading-zero branch
(whatsappController.js line 45) can ever run, so that branch is dead code. -/
theorem formatPhoneNumber_leading_zero_dead :
    formatPhoneNumber "09876543210" = some "09876543210" := by decide

/-- C10: every input whose digit-stripped form has between 11 and 15 digits
is returned exactly as that digit string, with no country-code prepending and
no leading-zero removal. -/
theorem formatPhoneNumber_over10_unchanged (s : String)
    (h11 : 11 ≤ (stripNonDigits s).length) (h15 : (stripNonDigits s).length ≤ 15) :
    formatPhoneNumber s = some (stripNonDigits s) := by
  have hs : s ≠ "" := stripNonDigits_length_pos_ne_empty s (by omega)
  simp only [formatPhoneNumber, if_neg hs]
  rw [if_neg (by omega), if_pos (by omega)]

/-- C10 witness: an 11-digit input with a leading zero is returned unchanged. -/
theorem formatPhoneNumber_over10_unchanged_witness :
    11 ≤ (stripNonDigits "0-98765 43210").length ∧
    (stripNonDigits "0-98765 43210").length ≤ 15 ∧
    formatPhoneNumber "0-98765 43210" = some "09876543210" := by
  refine ⟨by decide, by decide, ?_⟩
  have h := formatPhoneNumber_over10_unchanged "0-98765 43210" (by decide) (by decide)
  simpa using h

/-! ## Report dispatch orchestrator (`sendWhatsAppReport`, whatsappController.js 215-320)

The handler is embedded as a pure function of the caller's current quota
count, the request body, the two credential flags, and an oracle giving the
messaging provider's behaviour per normalized number.  Its observable
effects — the HTTP response, the list of numbers a delivery call was made
for, whether the message formatter ran, and the caller's new quota count —
are collected in `DispatchEffects`. -/

def AUDIT_LIMIT : Nat := 3

/-- JS `a || b` on an optional string: empty and missing are falsy. -/
def jsOr (v : Option String) (d : String) : String :=
  match v with
  | none => d
  | some s => if s = "" then d else s

/-- JS `a || null` on an optional string: empty and missing give null. -/
def jsOrNull (v : Option String) : Option String :=
  match v with
  | none => none
  | some s => if s = "" then none else some s

/-- Truthiness of an optional string field of the request body. -/
def optTruthy (v : Option String) : Bool :=
  match v with
  | none => false
  | some s => !(s == "")

/-- Outcome of one delivery call to the messaging provider: either a resolved
response (axios with validateStatus < 500) with its `data.status == "error"`
flag, its HTTP-status-at-least-400 flag, `data.message` and
`data.message_id`, or a thrown error carrying a message. -/
inductive DeliveryOutcome where
  | response (statusError : Bool) (httpGE400 : Bool)
      (message : Option String) (messageId : Option String)
  | thrown (msg : String)
deriving DecidableEq

structure RecipientResult where
  phoneNumber : String
  success : Bool
  error : Option String
  messageId : Option String
deriving DecidableEq

structure DispatchRequest where
  phoneNumbers : Option (List String)
  phoneNumber : Option String
  reportData : Bool
deriving DecidableEq

structure DispatchResponse where
  status : Nat
  success : Bool
  message : String
  results : List RecipientResult
  limit : Option Nat
  current : Option Nat
  auditsRemaining : Option Nat
deriving DecidableEq

structure DispatchEffects where
  response : DispatchResponse
  deliveredTo : List String
  formatted : Bool
  newCount : Nat
deriving DecidableEq

/-- Body of the per-recipient loop (whatsappController.js 259-301): normalize
the number; on failure record an invalid-number result with no delivery call;
otherwise make one delivery call and record success or failure from the
provider response, catching a thrown error as that recipient's failure.
Returns the result pushed to `results` and the delivery calls made. -/
def handleRecipient (oracle : String → DeliveryOutcome) (number : String) :
    RecipientResult × List String :=
  match formatPhoneNumber number with
  | none => (⟨number, false, some "Invalid phone number.", none⟩, [])
  | some formatted =>
    match oracle formatted with
    | DeliveryOutcome.response statusError httpGE400 message messageId =>
      if statusError = true ∨ httpGE400 = true then
        (⟨formatted, false, some (jsOr message "WhatsApp API error"), none⟩, [formatted])
      else
        (⟨formatted, true, none, jsOrNull messageId⟩, [formatted])
    | DeliveryOutcome.thrown m =>
      (⟨formatted, false, some (jsOr (some m) "Request failed"), none⟩, [formatted])

/-- The recipient list after the singular-field promotion
(whatsappController.js 231): a missing `phoneNumbers` with a truthy
`phoneNumber` becomes a one-element list; `!phoneNumbers?.length` then treats
a still-missing list as empty. -/
def effectivePhoneNumbers (req : DispatchRequest) : List String :=
  (match req.phoneNumbers with
   | some l => some l
   | none =>
     if optTruthy req.phoneNumber then some [req.phoneNumber.getD ""] else none).getD []

def sendWhatsAppReport (count : Nat) (req : DispatchRequest)
    (hasAccessToken hasInstanceId : Bool)
    (oracle : String → DeliveryOutcome) : DispatchEffects :=
  if AUDIT_LIMIT ≤ count then
    { response := ⟨429, false,
        "Audit limit exceeded. Max " ++ toString AUDIT_LIMIT ++ " per 24 hours.",
        [], some AUDIT_LIMIT, some count, none⟩,
      deliveredTo := [], formatted := false, newCount := count }
  else
    let pns := effectivePhoneNumbers req
    if pns.isEmpty = true ∨ req.reportData = false then
      { response := ⟨400, false, "Phone numbers and report data are required.",
          [], none, none, none⟩,
        deliveredTo := [], formatted := false, newCount := count }
    else if 3 < pns.length then
      { response := ⟨400, false,
          "Limit exceeded: Maximum 3 phone numbers allowed per request.",
          [], none, none, none⟩,
        deliveredTo := [], formatted := false, newCount := count }
    else if hasAccessToken = false ∨ hasInstanceId = false then
      { response := ⟨500, false, "WhatsApp service not configured.",
          [], none, none, none⟩,
        deliveredTo := [], formatted := false, newCount := count }
    else
      let pairs := pns.map (handleRecipient oracle)
      { response := ⟨200, true, "WhatsApp reports sent successfully.",
          pairs.map Prod.fst, some AUDIT_LIMIT, none,
          some (AUDIT_LIMIT - (count + 1))⟩,
        deliveredTo := (pairs.map Prod.snd).flatten,
        formatted := true, newCount := count + 1 }

/-- C2: a request from a key at or above the ceiling is rejected with 429
carrying the current count and the limit; no formatting, no delivery call,
and the quota count is left unchanged — for every request body, configuration
and provider behaviour. -/
theorem quota_gate_rejects_without_work (count : Nat) (req : DispatchRequest)
    (tok iid : Bool) (oracle : String → DeliveryOutcome)
    (h : AUDIT_LIMIT ≤ count) :
    (sendWhatsAppReport count req tok iid oracle).response.status = 429 ∧
    (sendWhatsAppReport count req tok iid oracle).response.success = false ∧
    (sendWhatsAppReport count req tok iid oracle).response.current = some count ∧
    (sendWhatsAppReport count req tok iid oracle).response.limit = some AUDIT_LIMIT ∧
    (sendWhatsAppReport count req tok iid oracle).formatted = false ∧
    (sendWhatsAppReport count req tok iid oracle).deliveredTo = [] ∧
    (sendWhatsAppReport count req tok iid oracle).newCount = count := by
  simp [sendWhatsAppReport, if_pos h]

/-- C2 witness: a fourth request (count already 3) is rejected untouched even
with an invalid body and a provider that would have failed. -/
theorem quota_gate_rejects_without_work_witness :
    AUDIT_LIMIT ≤ 3 ∧
    (sendWhatsAppReport 3 ⟨none, none, false⟩ false false
        (fun _ => DeliveryOutcome.thrown "boom")).response.status = 429 ∧
    (sendWhatsAppReport 3 ⟨none, none, false⟩ false false
        (fun _ => DeliveryOutcome.thrown "boom")).newCount = 3 := by
  have h := quota_gate_rejects_without_work 3 ⟨none, none, false⟩ false false
    (fun _ => DeliveryOutcome.thrown "boom") (by decide)
  exact ⟨by decide, h.1, h.2.2.2.2.2.2⟩

theorem handleRecipient_snd (oracle : String → DeliveryOutcome) (n : String) :
    (handleRecipient oracle n).2 = (formatPhoneNumber n).toList := by
  unfold handleRecipient
  cases h : formatPhoneNumber n with
  | none => rfl
  | some f =>
    cases ho : oracle f with
    | response a b c d =>
      simp only [ho]
      by_cases hab : a = true ∨ b = true <;> simp [hab]
    | thrown m => simp [ho]

theorem flatten_map_toList (l : List String) (f : String → Option String) :
    (l.map fun n => (f n).toList).flatten = l.filterMap f := by
  induction l with
  | nil => rfl
  | cons a t ih => cases h : f a <;> simp [List.filterMap_cons, h, ih]

/-- C3: a request that passes the quota gate, input validation and the
configuration check increments the caller's quota count by exactly one, for
every provider behaviour; a request rejected at input validation leaves the
count unchanged. -/
theorem quota_charged_exactly_once (count : Nat) (req : DispatchRequest)
    (tok iid : Bool) (oracle : String → DeliveryOutcome)
    (hq : count < AUDIT_LIMIT) :
    ((effectivePhoneNumbers req).isEmpty = false → req.reportData = true →
      (effectivePhoneNumbers req).length ≤ 3 → tok = true → iid = true →
      (sendWhatsAppReport count req tok iid oracle).newCount = count + 1) ∧
    (((effectivePhoneNumbers req).isEmpty = true ∨ req.reportData = false ∨
        3 < (effectivePhoneNumbers req).length) →
      (sendWhatsAppReport count req tok iid oracle).newCount = count) := by
  constructor
  · intro hne hrd hlen htok hiid
    simp only [sendWhatsAppReport]
    rw [if_neg (by omega), if_neg (by simp [hne, hrd]), if_neg (by omega),
      if_neg (by simp [htok, hiid])]
  · intro hrej
    simp only [sendWhatsAppReport]
    rw [if_neg (by omega)]
    by_cases hval : (effectivePhoneNumbers req).isEmpty = true ∨ req.reportData = false
    · rw [if_pos hval]
    · rw [if_neg hval, if_pos ?_]
      rcases hrej with h | h | h
      · exact absurd (Or.inl h) hval
      · exact absurd (Or.inr h) hval
      · exact h

/-- C3 witness: an accepted single-recipient request moves the count from 0
to 1, and a request with four recipients (rejected at validation) leaves the
count at 0. -/
theorem quota_charged_exactly_once_witness :
    (sendWhatsAppReport 0 ⟨some ["9876543210"], none, true⟩ true true
        (fun _ => DeliveryOutcome.thrown "boom")).newCount = 1 ∧
    (sendWhatsAppReport 0 ⟨some ["1", "2", "3", "4"], none, true⟩ true true
        (fun _ => DeliveryOutcome.thrown "boom")).newCount = 0 := by
  constructor
  · exact (quota_charged_exactly_once 0 ⟨some ["9876543210"], none, true⟩ true true
      (fun _ => DeliveryOutcome.thrown "boom") (by decide)).1
      (by decide) rfl (by decide) rfl rfl
  · exact (quota_charged_exactly_once 0 ⟨some ["1", "2", "3", "4"], none, true⟩ true true
      (fun _ => DeliveryOutcome.thrown "boom") (by decide)).2
      (Or.inr (Or.inr (by decide)))

/-- C7: an accepted dispatch request processes every recipient independently:
the response is 200 with overall success and one result per recipient,
delivery calls are made exactly for the recipients whose number normalizes
(so an invalid number gets no call), an invalid number yields a failure
result, and a thrown delivery error is recorded as that recipient's failure
while the remaining recipients still get their calls. -/
theorem dispatch_isolates_recipients (count : Nat) (pns : List String) (rd : Bool)
    (oracle : String → DeliveryOutcome) (hq : count < AUDIT_LIMIT)
    (hne : pns ≠ []) (hrd : rd = true) (hlen : pns.length ≤ 3) :
    (sendWhatsAppReport count ⟨some pns, none, rd⟩ true true oracle).response.status = 200 ∧
    (sendWhatsAppReport count ⟨some pns, none, rd⟩ true true oracle).response.success = true ∧
    (sendWhatsAppReport count ⟨some pns, none, rd⟩ true true
        oracle).response.results.length = pns.length ∧
    (sendWhatsAppReport count ⟨some pns, none, rd⟩ true true oracle).deliveredTo =
      pns.filterMap formatPhoneNumber ∧
    (∀ (i : Nat) (n : String), pns[i]? = some n → formatPhoneNumber n = none →
      (sendWhatsAppReport count ⟨some pns, none, rd⟩ true true
          oracle).response.results[i]? =
        some (RecipientResult.mk n false (some "Invalid phone number.") none)) ∧
    (∀ (i : Nat) (n f m : String), pns[i]? = some n → formatPhoneNumber n = some f →
      oracle f = DeliveryOutcome.thrown m →
      (sendWhatsAppReport count ⟨some pns, none, rd⟩ true true
          oracle).response.results[i]? =
        some (RecipientResult.mk f false (some (jsOr (some m) "Request failed")) none)) := by
  have hpns : effectivePhoneNumbers ⟨some pns, none, rd⟩ = pns := rfl
  have hunfold : sendWhatsAppReport count ⟨some pns, none, rd⟩ true true oracle =
      { response := ⟨200, true, "WhatsApp reports sent successfully.",
          (pns.map (handleRecipient oracle)).map Prod.fst, some AUDIT_LIMIT, none,
          some (AUDIT_LIMIT - (count + 1))⟩,
        deliveredTo := ((pns.map (handleRecipient oracle)).map Prod.snd).flatten,
        formatted := true, newCount := count + 1 } := by
    simp only [sendWhatsAppReport, hpns]
    rw [if_neg (by omega), if_neg (by simp [hne, hrd]), if_neg (by omega),
      if_neg (by simp)]
  rw [hunfold]
  refine ⟨rfl, rfl, by simp, ?_, ?_, ?_⟩
  · show ((pns.map (handleRecipient oracle)).map Prod.snd).flatten = _
    rw [List.map_map]
    have : (Prod.snd ∘ handleRecipient oracle) =
        fun n => (formatPhoneNumber n).toList := by
      funext n
      exact handleRecipient_snd oracle n
    rw [this, flatten_map_toList]
  · intro i n hi hPhone
    show ((pns.map (handleRecipient oracle)).map Prod.fst)[i]? = _
    rw [List.map_map, List.getElem?_map, hi]
    simp only [Option.map_some']
    show some (handleRecipient oracle n).1 = _
    unfold handleRecipient
    rw [hPhone]
  · intro i n f m hi hPhone hOracle
    show ((pns.map (handleRecipient oracle)).map Prod.fst)[i]? = _
    rw [List.map_map, List.getElem?_map, hi]
    simp only [Option.map_some']
    show some (handleRecipient oracle n).1 = _
    unfold handleRecipient
    rw [hPhone]
    simp only [hOracle]

/-- C7 witness: three recipients, the first invalid, the second valid with a
thrown delivery error, the third valid and delivered — the response is 200
with three results and delivery calls were made exactly for the two valid
numbers. -/
theorem dispatch_isolates_recipients_witness :
    (sendWhatsAppReport 0 ⟨some ["12345", "9876543210", "911234567890"], none, true⟩
        true true
        (fun n => if n = "919876543210" then DeliveryOutcome.thrown "timeout"
                  else DeliveryOutcome.response false false none
                    (some "id1"))).response.status = 200 ∧
    (sendWhatsAppReport 0 ⟨some ["12345", "9876543210", "911234567890"], none, true⟩
        true true
        (fun n => if n = "919876543210" then DeliveryOutcome.thrown "timeout"
                  else DeliveryOutcome.response false false none
                    (some "id1"))).response.results[0]? =
      some ⟨"12345", false, some "Invalid phone number.", none⟩ ∧
    (sendWhatsAppReport 0 ⟨some ["12345", "9876543210", "911234567890"], none, true⟩
        true true
        (fun n => if n = "919876543210" then DeliveryOutcome.thrown "timeout"
                  else DeliveryOutcome.response false false none
                    (some "id1"))).response.results[1]? =
      some ⟨"919876543210", false, some "timeout", none⟩ ∧
    (sendWhatsAppReport 0 ⟨some ["12345", "9876543210", "911234567890"], none, true⟩
        true true
        (fun n => if n = "919876543210" then DeliveryOutcome.thrown "timeout"
                  else DeliveryOutcome.response false false none
                    (some "id1"))).deliveredTo = ["919876543210", "911234567890"] := by
  have h := dispatch_isolates_recipients 0 ["12345", "9876543210", "911234567890"] true
    (fun n => if n = "919876543210" then DeliveryOutcome.thrown "timeout"
              else DeliveryOutcome.response false false none (some "id1"))
    (by decide) (by decide) rfl (by decide)
  refine ⟨h.1, ?_, ?_, ?_⟩
  · exact h.2.2.2.2.1 0 "12345" rfl (by decide)
  · have := h.2.2.2.2.2 1 "9876543210" "919876543210" "timeout" rfl (by decide) (by decide)
    simpa [jsOr] using this
  · rw [h.2.2.2.1]
    decide

/-! ## PageSpeed relay (`router.post /pagespeed/run`, routes 333-476)

The endpoint is embedded as a pure function of the request body, an abstract
URL-validity predicate standing for the JS `new URL(url)` parse, the API-key
configuration flag, and an oracle giving the upstream outcome per 1-indexed
attempt.  `RelayOutcome` records the response status/success, the number of
upstream calls, the backoff waits in milliseconds in order, and the error
detail surfaced in the body.  Response message strings are elided. -/

def MAX_RETRIES : Nat := 3

/-- Character-list matching used by `strContains`: does the first list occur
at the head of the second. -/
def charsLeadingMatch : List Char → List Char → Bool
  | [], _ => true
  | _ :: _, [] => false
  | p :: ps, c :: cs => p = c && charsLeadingMatch ps cs

def charsContain : List Char → List Char → Bool
  | [], pat => pat.isEmpty
  | c :: rest, pat => charsLeadingMatch pat (c :: rest) || charsContain rest pat

/-- Substring test, matching JS `String.prototype.includes`: the pattern
occurs contiguously somewhere in the string. -/
def strContains (s pat : String) : Bool :=
  charsContain s.data pat.data

/-- The auth-failure classification of a caught error message
(routes line 439): it contains "403" or "401". -/
def isAuthMsg (m : String) : Bool :=
  strContains m "403" || strContains m "401"

/-- One axios call outcome: a resolved response (validateStatus < 500) with
its HTTP status and `data.error.message`, or a thrown error with a message
(network failure, timeout, or a 5xx status rejected by validateStatus). -/
inductive AxiosOutcome where
  | response (status : Nat) (errMsg : Option String)
  | thrown (msg : String)
deriving DecidableEq

/-- Classification of one attempt inside the try block (routes 396-430):
403 and 400 return terminally with the upstream detail, other statuses at or
above 400 raise a retryable error carrying the upstream message (or a
constructed one), lower statuses return success; a thrown error is retryable
as caught. -/
inductive AttemptClass where
  | terminal (status : Nat) (success : Bool) (detail : Option String)
  | retryable (msg : String)
deriving DecidableEq

def classifyAttempt (o : AxiosOutcome) : AttemptClass :=
  match o with
  | AxiosOutcome.response st em =>
    if st = 403 then AttemptClass.terminal 403 false em
    else if st = 400 then AttemptClass.terminal 400 false em
    else if 400 ≤ st then
      AttemptClass.retryable (jsOr em ("API returned status " ++ toString st))
    else AttemptClass.terminal 200 true none
  | AxiosOutcome.thrown m => AttemptClass.retryable m

structure RelayOutcome where
  status : Nat
  success : Bool
  calls : Nat
  waits : List Nat
  err : Option String
deriving DecidableEq

/-- The retry loop (routes 376-455) from a given 1-indexed attempt with a
given number of remaining iterations, accumulating the calls made and the
backoff waits.  A caught error whose message contains "403" or "401" aborts
with 500; otherwise, when iterations remain, the loop waits
`2^(attempt-1) * 1000` ms and retries; exhaustion yields 503 carrying the
last error. -/
def loopFrom (oracle : Nat → AxiosOutcome) :
    Nat → Nat → Nat → List Nat → Option String → RelayOutcome
  | _, 0, calls, waits, lastErr => ⟨503, false, calls, waits, lastErr⟩
  | attempt, r + 1, calls, waits, _ =>
    match classifyAttempt (oracle attempt) with
    | AttemptClass.terminal st ok detail => ⟨st, ok, calls + 1, waits, detail⟩
    | AttemptClass.retryable msg =>
      if isAuthMsg msg = true then ⟨500, false, calls + 1, waits, some msg⟩
      else
        match r with
        | 0 => ⟨503, false, calls + 1, waits, some msg⟩
        | _ + 1 =>
          loopFrom oracle (attempt + 1) r (calls + 1)
            (waits ++ [2 ^ (attempt - 1) * 1000]) (some msg)

structure PagespeedRequest where
  url : Option String
  strategy : Option String
deriving DecidableEq

/-- The /pagespeed/run handler: missing fields, a strategy outside
mobile/desktop, and an unparsable URL are rejected 400 in that order; a
missing API key is a 500; otherwise the retry loop runs with
`MAX_RETRIES` iterations from attempt 1. -/
def pagespeedRun (req : PagespeedRequest) (urlValid : String → Bool)
    (hasApiKey : Bool) (oracle : Nat → AxiosOutcome) : RelayOutcome :=
  if optTruthy req.url = false ∨ optTruthy req.strategy = false then
    ⟨400, false, 0, [], none⟩
  else if ¬(req.strategy.getD "" = "mobile" ∨ req.strategy.getD "" = "desktop") then
    ⟨400, false, 0, [], none⟩
  else if urlValid (req.url.getD "") = false then ⟨400, false, 0, [], none⟩
  else if hasApiKey = false then ⟨500, false, 0, [], none⟩
  else loopFrom oracle 1 MAX_RETRIES 0 [] none

theorem loopFrom_terminal (oracle : Nat → AxiosOutcome)
    (attempt r calls : Nat) (waits : List Nat) (lastErr : Option String)
    (st : Nat) (ok : Bool) (detail : Option String)
    (h : classifyAttempt (oracle attempt) = AttemptClass.terminal st ok detail) :
    loopFrom oracle attempt (r + 1) calls waits lastErr =
      ⟨st, ok, calls + 1, waits, detail⟩ := by
  simp [loopFrom, h]

theorem loopFrom_retry_auth (oracle : Nat → AxiosOutcome)
    (attempt r calls : Nat) (waits : List Nat) (lastErr : Option String)
    (msg : String)
    (h : classifyAttempt (oracle attempt) = AttemptClass.retryable msg)
    (hauth : isAuthMsg msg = true) :
    loopFrom oracle attempt (r + 1) calls waits lastErr =
      ⟨500, false, calls + 1, waits, some msg⟩ := by
  simp [loopFrom, h, hauth]

theorem loopFrom_retry_exhausted (oracle : Nat → AxiosOutcome)
    (attempt calls : Nat) (waits : List Nat) (lastErr : Option String)
    (msg : String)
    (h : classifyAttempt (oracle attempt) = AttemptClass.retryable msg)
    (hauth : isAuthMsg msg = false) :
    loopFrom oracle attempt 1 calls waits lastErr =
      ⟨503, false, calls + 1, waits, some msg⟩ := by
  show loopFrom oracle attempt (0 + 1) calls waits lastErr = _
  simp [loopFrom, h, hauth]

theorem loopFrom_retry_backoff (oracle : Nat → AxiosOutcome)
    (attempt r calls : Nat) (waits : List Nat) (lastErr : Option String)
    (msg : String)
    (h : classifyAttempt (oracle attempt) = AttemptClass.retryable msg)
    (hauth : isAuthMsg msg = false) :
    loopFrom oracle attempt (r + 2) calls waits lastErr =
      loopFrom oracle (attempt + 1) (r + 1) (calls + 1)
        (waits ++ [2 ^ (attempt - 1) * 1000]) (some msg) := by
  show loopFrom oracle attempt ((r + 1) + 1) calls waits lastErr = _
  simp [loopFrom, h, hauth]

theorem pagespeedRun_valid_gate (url : String) (strat : String)
    (uv : String → Bool) (oracle : Nat → AxiosOutcome)
    (hu : url ≠ "") (huv : uv url = true)
    (hs : strat = "mobile" ∨ strat = "desktop") :
    pagespeedRun ⟨some url, some strat⟩ uv true oracle =
      loopFrom oracle 1 MAX_RETRIES 0 [] none := by
  have hs' : strat ≠ "" := by
    rcases hs with h | h <;> simp [h]
  simp [pagespeedRun, optTruthy, hu, huv, hs, hs']

/-- C4: whenever the loop reaches an attempt on which the upstream responds
403, it returns status 403 from that attempt with one more upstream call, no
further attempts and no backoff wait added; likewise a 400 response returns
status 400 immediately; in particular a 403 on attempt 1 of a valid relay
request gives a 403 with exactly one call and zero waits. -/
theorem relay_403_400_terminal (oracle : Nat → AxiosOutcome)
    (attempt r calls : Nat) (waits : List Nat) (lastErr em : Option String)
    (url : String) (uv : String → Bool) :
    (oracle attempt = AxiosOutcome.response 403 em →
      loopFrom oracle attempt (r + 1) calls waits lastErr =
        ⟨403, false, calls + 1, waits, em⟩) ∧
    (oracle attempt = AxiosOutcome.response 400 em →
      loopFrom oracle attempt (r + 1) calls waits lastErr =
        ⟨400, false, calls + 1, waits, em⟩) ∧
    (url ≠ "" → uv url = true → oracle 1 = AxiosOutcome.response 403 em →
      pagespeedRun ⟨some url, some "mobile"⟩ uv true oracle =
        ⟨403, false, 1, [], em⟩) := by
  refine ⟨?_, ?_, ?_⟩
  · intro ho
    exact loopFrom_terminal oracle attempt r calls waits lastErr 403 false em
      (by simp [classifyAttempt, ho])
  · intro ho
    exact loopFrom_terminal oracle attempt r calls waits lastErr 400 false em
      (by simp [classifyAttempt, ho])
  · intro hu huv ho
    rw [pagespeedRun_valid_gate url "mobile" uv oracle hu huv (Or.inl rfl)]
    exact loopFrom_terminal oracle 1 2 0 [] none 403 false em
      (by simp [classifyAttempt, ho])

/-- C4 witness: a valid request whose first upstream response is a 403 yields
a 403 with exactly one upstream call and an empty wait list; the 400 case
likewise at the loop level. -/
theorem relay_403_400_terminal_witness :
    pagespeedRun ⟨some "https://example.com", some "mobile"⟩ (fun _ => true) true
        (fun _ => AxiosOutcome.response 403 (some "quota")) =
      ⟨403, false, 1, [], some "quota"⟩ ∧
    loopFrom (fun _ => AxiosOutcome.response 400 none) 1 (2 + 1) 0 [] none =
      ⟨400, false, 1, [], none⟩ := by
  constructor
  · exact (relay_403_400_terminal (fun _ => AxiosOutcome.response 403 (some "quota"))
      1 0 0 [] none (some "quota") "https://example.com" (fun _ => true)).2.2
      (by decide) rfl rfl
  · exact (relay_403_400_terminal (fun _ => AxiosOutcome.response 400 none)
      1 2 0 [] none none "x" (fun _ => true)).2.1 rfl


/-- C5: a retryable failure (status at least 400 other than 403/400, or a
thrown error, with no auth marker in the message) is retried after a wait of
2^(attempt-1) seconds while attempts remain; a response below status 400 on
any attempt returns success immediately; and when all three attempts fail
retryably the relay returns 503 carrying the last error, after exactly the
two waits of one and two seconds. -/
theorem relay_retry_schedule (oracle : Nat → AxiosOutcome)
    (attempt r calls st : Nat) (waits : List Nat) (lastErr em : Option String)
    (msg m1 m2 m3 : String) (url : String) (uv : String → Bool) :
    (classifyAttempt (oracle attempt) = AttemptClass.retryable msg →
      isAuthMsg msg = false →
      loopFrom oracle attempt (r + 2) calls waits lastErr =
        loopFrom oracle (attempt + 1) (r + 1) (calls + 1)
          (waits ++ [2 ^ (attempt - 1) * 1000]) (some msg)) ∧
    (oracle attempt = AxiosOutcome.response st em → st < 400 →
      loopFrom oracle attempt (r + 1) calls waits lastErr =
        ⟨200, true, calls + 1, waits, none⟩) ∧
    (url ≠ "" → uv url = true →
      classifyAttempt (oracle 1) = AttemptClass.retryable m1 → isAuthMsg m1 = false →
      classifyAttempt (oracle 2) = AttemptClass.retryable m2 → isAuthMsg m2 = false →
      classifyAttempt (oracle 3) = AttemptClass.retryable m3 → isAuthMsg m3 = false →
      pagespeedRun ⟨some url, some "mobile"⟩ uv true oracle =
        ⟨503, false, 3, [1000, 2000], some m3⟩) := by
  refine ⟨?_, ?_, ?_⟩
  · intro hc hauth
    exact loopFrom_retry_backoff oracle attempt r calls waits lastErr msg hc hauth
  · intro ho hst
    have h403 : ¬ st = 403 := by omega
    have h400 : ¬ st = 400 := by omega
    have hge : ¬ 400 ≤ st := by omega
    exact loopFrom_terminal oracle attempt r calls waits lastErr 200 true none
      (by simp [classifyAttempt, ho, h403, h400, hge])
  · intro hu huv h1 n1 h2 n2 h3 n3
    rw [pagespeedRun_valid_gate url "mobile" uv oracle hu huv (Or.inl rfl)]
    have e1 : loopFrom oracle 1 3 0 [] none =
        loopFrom oracle 2 2 1 [1000] (some m1) := by
      have h := loopFrom_retry_backoff oracle 1 1 0 [] none m1 h1 n1
      simpa using h
    have e2 : loopFrom oracle 2 2 1 [1000] (some m1) =
        loopFrom oracle 3 1 2 [1000, 2000] (some m2) := by
      have h := loopFrom_retry_backoff oracle 2 0 1 [1000] (some m1) m2 h2 n2
      simpa using h
    have e3 : loopFrom oracle 3 1 2 [1000, 2000] (some m2) =
        ⟨503, false, 3, [1000, 2000], some m3⟩ := by
      have h := loopFrom_retry_exhausted oracle 3 2 [1000, 2000] (some m2) m3 h3 n3
      simpa using h
    exact e1.trans (e2.trans e3)

/-- C5 witness: three thrown non-auth failures give a 503 with three calls
and the backoff waits of 1000 ms and 2000 ms; a 204 upstream response on the
first attempt of the loop returns success immediately; the first failure
recurses with the 1000 ms wait appended. -/
theorem relay_retry_schedule_witness :
    pagespeedRun ⟨some "https://example.com", some "mobile"⟩ (fun _ => true) true
        (fun _ => AxiosOutcome.thrown "socket hang up") =
      ⟨503, false, 3, [1000, 2000], some "socket hang up"⟩ ∧
    loopFrom (fun _ => AxiosOutcome.response 204 none) 1 (2 + 1) 0 [] none =
      ⟨200, true, 1, [], none⟩ ∧
    loopFrom (fun _ => AxiosOutcome.thrown "socket hang up") 1 (0 + 2) 0 [] none =
      loopFrom (fun _ => AxiosOutcome.thrown "socket hang up") 2 1 1 [1000]
        (some "socket hang up") := by
  refine ⟨?_, ?_, ?_⟩
  · exact (relay_retry_schedule (fun _ => AxiosOutcome.thrown "socket hang up")
      1 0 0 0 [] none none "socket hang up" "socket hang up" "socket hang up"
      "socket hang up" "https://example.com" (fun _ => true)).2.2
      (by decide) rfl rfl (by decide) rfl (by decide) rfl (by decide)
  · exact (relay_retry_schedule (fun _ => AxiosOutcome.response 204 none)
      1 2 0 204 [] none none "x" "x" "x" "x" "u" (fun _ => true)).2.1 rfl (by decide)
  · have h := (relay_retry_schedule (fun _ => AxiosOutcome.thrown "socket hang up")
      1 0 0 0 [] none none "socket hang up" "x" "x" "x" "u" (fun _ => true)).1
      rfl (by decide)
    simpa using h

/-- C5 counterexample: an upstream status of 401 with no upstream error
message is not retried, although it is at least 400 and differs from 403 and
400: the constructed message "API returned status 401" contains "401", so the
auth-abort path returns 500 after a single call with no backoff wait, where
the claim would have the relay retry and eventually return 503. -/
theorem relay_401_default_message_not_retried :
    pagespeedRun ⟨some "https://example.com", some "mobile"⟩ (fun _ => true) true
        (fun _ => AxiosOutcome.response 401 none) =
      ⟨500, false, 1, [], some "API returned status 401"⟩ := by
  rw [pagespeedRun_valid_gate "https://example.com" "mobile" (fun _ => true)
    (fun _ => AxiosOutcome.response 401 none) (by decide) rfl (Or.inl rfl)]
  exact loopFrom_retry_auth (fun _ => AxiosOutcome.response 401 none) 1 2 0 [] none
    "API returned status 401" (by decide) (by decide)

/-- C6: a caught error whose message contains "403" or "401" — whether the
call threw it or it was constructed from a status at least 400 — aborts all
remaining retries immediately with a 500 and no backoff wait; in particular a
thrown auth error on attempt 1 of a valid request gives a 500 with one call
and zero waits. -/
theorem relay_auth_abort (oracle : Nat → AxiosOutcome)
    (attempt r calls : Nat) (waits : List Nat) (lastErr : Option String)
    (msg url : String) (uv : String → Bool) :
    (classifyAttempt (oracle attempt) = AttemptClass.retryable msg →
      (strContains msg "403" || strContains msg "401") = true →
      loopFrom oracle attempt (r + 1) calls waits lastErr =
        ⟨500, false, calls + 1, waits, some msg⟩) ∧
    (url ≠ "" → uv url = true → oracle 1 = AxiosOutcome.thrown msg →
      (strContains msg "403" || strContains msg "401") = true →
      pagespeedRun ⟨some url, some "desktop"⟩ uv true oracle =
        ⟨500, false, 1, [], some msg⟩) := by
  constructor
  · intro hc hauth
    exact loopFrom_retry_auth oracle attempt r calls waits lastErr msg hc hauth
  · intro hu huv ho hauth
    rw [pagespeedRun_valid_gate url "desktop" uv oracle hu huv (Or.inr rfl)]
    exact loopFrom_retry_auth oracle 1 2 0 [] none msg
      (by simp [classifyAttempt, ho]) hauth

/-- C6 witness: a thrown "Request failed with status code 401" on the first
attempt of a valid request aborts with 500, one upstream call, no waits. -/
theorem relay_auth_abort_witness :
    pagespeedRun ⟨some "https://example.com", some "desktop"⟩ (fun _ => true) true
        (fun _ => AxiosOutcome.thrown "Request failed with status code 401") =
      ⟨500, false, 1, [], some "Request failed with status code 401"⟩ := by
  exact (relay_auth_abort
    (fun _ => AxiosOutcome.thrown "Request failed with status code 401")
    1 0 0 [] none "Request failed with status code 401" "https://example.com"
    (fun _ => true)).2 (by decide) rfl rfl (by decide)

/-- C8: a relay request with a missing or falsy url or strategy, a strategy
other than exactly "mobile" or "desktop", or a url that does not parse,
is rejected with 400 and zero upstream calls, for every URL-validity
predicate, configuration and upstream behaviour. -/
theorem relay_validation_rejects (u s : Option String) (uv : String → Bool)
    (key : Bool) (oracle : Nat → AxiosOutcome)
    (h : optTruthy u = false ∨ optTruthy s = false ∨
      (s.getD "" ≠ "mobile" ∧ s.getD "" ≠ "desktop") ∨ uv (u.getD "") = false) :
    pagespeedRun ⟨u, s⟩ uv key oracle = ⟨400, false, 0, [], none⟩ := by
  show (if optTruthy u = false ∨ optTruthy s = false
      then (⟨400, false, 0, [], none⟩ : RelayOutcome)
    else if ¬((s.getD "" : String) = "mobile" ∨ (s.getD "" : String) = "desktop")
      then ⟨400, false, 0, [], none⟩
    else if uv (u.getD "") = false then ⟨400, false, 0, [], none⟩
    else if key = false then ⟨500, false, 0, [], none⟩
    else loopFrom oracle 1 MAX_RETRIES 0 [] none) = ⟨400, false, 0, [], none⟩
  by_cases h1 : optTruthy u = false ∨ optTruthy s = false
  · rw [if_pos h1]
  · rw [if_neg h1]
    by_cases h2 : ¬((s.getD "" : String) = "mobile" ∨ (s.getD "" : String) = "desktop")
    · rw [if_pos h2]
    · rw [if_neg h2]
      have h3 : uv (u.getD "") = false := by
        rcases h with h | h | ⟨ha, hb⟩ | h
        · exact absurd (Or.inl h) h1
        · exact absurd (Or.inr h) h1
        · push_neg at h2
          rcases h2 with h2 | h2
          · exact absurd h2 ha
          · exact absurd h2 hb
        · exact h
      rw [if_pos h3]

/-- C8 witness: strategy "tablet" with a well-formed url, a configured key
and a healthy upstream is still rejected 400 with zero upstream calls. -/
theorem relay_validation_rejects_witness :
    pagespeedRun ⟨some "https://example.com", some "tablet"⟩ (fun _ => true) true
        (fun _ => AxiosOutcome.response 200 none) = ⟨400, false, 0, [], none⟩ := by
  exact relay_validation_rejects (some "https://example.com") (some "tablet")
    (fun _ => true) true (fun _ => AxiosOutcome.response 200 none)
    (Or.inr (Or.inr (Or.inl (by decide))))

end MjBackend
